import Mathlib

/-!
Verification of the ALPINE (Authenticated Lighting Network Protocol)
reference implementation against its natural-language specification.

The definitions below are a shallow embedding of the Rust sources:
machine integers become `Nat`/`Int` with explicit wrapping or saturation
where the source wraps or saturates, `f64` metric values become `ℚ`,
fallible operations return `Except`/`Option`, and stateful code is
explicit state passing.  Source files embedded here:

* `src/alnp/src/profile.rs`      — stream profiles and `compile`
* `src/alnp/src/stream/network.rs`  — `NetworkConditions`
* `src/alnp/src/stream/recovery.rs` — `RecoveryMonitor`
* `src/alnp/src/stream/adaptive.rs` — `decide_next_state`
* `src/alnp/src/stream.rs`       — jitter strategies of `AlnpStream::send`
* `src/alnp/src/handshake/transport.rs` — `ReliableControlChannel`
* `src/alnp/src/control.rs`      — `ControlClient::send`
* `src/alnp/src/session/mod.rs`  — profile locking
-/

set_option maxRecDepth 100000

namespace Alnp

/-! ## SHA-256 (the `sha2` crate's function as used by `StreamProfile::compile`)

A byte is a `Nat < 256`; a 32-bit word is a `Nat < 2^32` maintained by
reducing every arithmetic result mod `2^32`. -/

/-- Reduce to a 32-bit word. -/
def w32 (x : Nat) : Nat := x % 4294967296

/-- Right-rotation of a 32-bit word by `n` bits. -/
def rotr32 (n x : Nat) : Nat := w32 ((x >>> n) ||| (x <<< (32 - n)))

/-- Bitwise complement of a 32-bit word. -/
def not32 (x : Nat) : Nat := 4294967295 ^^^ (w32 x)

/-- The SHA-256 round constants (fractional parts of the cube roots of the
first 64 primes). -/
def sha256K : List Nat :=
  [1116352408, 1899447441, 3049323471, 3921009573, 961987163,
   1508970993, 2453635748, 2870763221, 3624381080, 310598401,
   607225278, 1426881987, 1925078388, 2162078206, 2614888103,
   3248222580, 3835390401, 4022224774, 264347078, 604807628,
   770255983, 1249150122, 1555081692, 1996064986, 2554220882,
   2821834349, 2952996808, 3210313671, 3336571891, 3584528711,
   113926993, 338241895, 666307205, 773529912, 1294757372,
   1396182291, 1695183700, 1986661051, 2177026350, 2456956037,
   2730485921, 2820302411, 3259730800, 3345764771, 3516065817,
   3600352804, 4094571909, 275423344, 430227734, 506948616,
   659060556, 883997877, 958139571, 1322822218, 1537002063,
   1747873779, 1955562222, 2024104815, 2227730452, 2361852424,
   2428436474, 2756734187, 3204031479, 3329325298]

/-- Working state of the SHA-256 compression function. -/
structure Sha256State where
  a : Nat
  b : Nat
  c : Nat
  d : Nat
  e : Nat
  f : Nat
  g : Nat
  h : Nat
deriving DecidableEq

/-- Initial SHA-256 hash value (fractional parts of the square roots of the
first 8 primes). -/
def sha256Init : Sha256State :=
  ⟨1779033703, 3144134277, 1013904242, 2773480762,
   1359893119, 2600822924, 528734635, 1541459225⟩

/-- One round of the SHA-256 compression function. -/
def sha256Round (st : Sha256State) (k w : Nat) : Sha256State :=
  let s1 := (rotr32 6 st.e) ^^^ (rotr32 11 st.e) ^^^ (rotr32 25 st.e)
  let ch := (st.e &&& st.f) ^^^ ((not32 st.e) &&& st.g)
  let temp1 := w32 (st.h + s1 + ch + k + w)
  let s0 := (rotr32 2 st.a) ^^^ (rotr32 13 st.a) ^^^ (rotr32 22 st.a)
  let maj := (st.a &&& st.b) ^^^ (st.a &&& st.c) ^^^ (st.b &&& st.c)
  let temp2 := w32 (s0 + maj)
  ⟨w32 (temp1 + temp2), st.a, st.b, st.c, w32 (st.d + temp1), st.e, st.f, st.g⟩

/-- Big-endian 4-byte groups to 32-bit words. -/
def wordsOfBytes : List Nat → List Nat
  | b0 :: b1 :: b2 :: b3 :: rest =>
      (w32 ((b0 <<< 24) + (b1 <<< 16) + (b2 <<< 8) + b3)) :: wordsOfBytes rest
  | _ => []

/-- Extend the 16-word message schedule by `n` further words. -/
def sha256Extend (w : Array Nat) : Nat → Array Nat
  | 0 => w
  | n + 1 =>
      let i := w.size
      let w15 := w.getD (i - 15) 0
      let w2 := w.getD (i - 2) 0
      let s0 := (rotr32 7 w15) ^^^ (rotr32 18 w15) ^^^ (w15 >>> 3)
      let s1 := (rotr32 17 w2) ^^^ (rotr32 19 w2) ^^^ (w2 >>> 10)
      let next := w32 (w.getD (i - 16) 0 + s0 + w.getD (i - 7) 0 + s1)
      sha256Extend (w.push next) n

/-- Compress one 64-byte block into the running hash value. -/
def sha256Compress (h0 : Sha256State) (block : List Nat) : Sha256State :=
  let ws := sha256Extend (Array.mk (wordsOfBytes block)) 48
  let st := (List.zip sha256K ws.toList).foldl
    (fun st kw => sha256Round st kw.1 kw.2) h0
  ⟨w32 (h0.a + st.a), w32 (h0.b + st.b), w32 (h0.c + st.c), w32 (h0.d + st.d),
   w32 (h0.e + st.e), w32 (h0.f + st.f), w32 (h0.g + st.g), w32 (h0.h + st.h)⟩

/-- Big-endian bytes of a 64-bit length value. -/
def lenBytes64 (bits : Nat) : List Nat :=
  [(bits >>> 56) % 256, (bits >>> 48) % 256, (bits >>> 40) % 256,
   (bits >>> 32) % 256, (bits >>> 24) % 256, (bits >>> 16) % 256,
   (bits >>> 8) % 256, bits % 256]

/-- SHA-256 message padding: `0x80`, zeros to 56 mod 64, 8-byte bit length. -/
def sha256Pad (msg : List Nat) : List Nat :=
  let len := msg.length
  let zeros := (64 - (len + 9) % 64) % 64
  msg ++ 0x80 :: List.replicate zeros 0 ++ lenBytes64 (8 * len)

/-- Split a byte list into 64-byte blocks (structural recursion on a fuel
that bounds the number of blocks, so the kernel can evaluate it). -/
def chunks64Go : Nat → List Nat → List (List Nat)
  | 0, _ => []
  | fuel + 1, l => if l.isEmpty then [] else l.take 64 :: chunks64Go fuel (l.drop 64)

/-- Split a byte list into 64-byte blocks. -/
def chunks64 (l : List Nat) : List (List Nat) := chunks64Go l.length l

/-- Bytes of a 32-bit word, big-endian. -/
def bytesOfWord (x : Nat) : List Nat :=
  [(x >>> 24) % 256, (x >>> 16) % 256, (x >>> 8) % 256, x % 256]

/-- The SHA-256 digest (32 bytes) of a byte string. -/
def sha256Bytes (msg : List Nat) : List Nat :=
  let final := (chunks64 (sha256Pad msg)).foldl sha256Compress sha256Init
  bytesOfWord final.a ++ bytesOfWord final.b ++ bytesOfWord final.c ++
  bytesOfWord final.d ++ bytesOfWord final.e ++ bytesOfWord final.f ++
  bytesOfWord final.g ++ bytesOfWord final.h

/-- Lowercase hexadecimal digit. -/
def hexDigitChar (n : Nat) : Char :=
  Char.ofNat (if n < 10 then 48 + n else 87 + n)

/-- Lowercase hexadecimal encoding of a byte string, as
`format!("\x7b:02x\x7d", byte)` collected over the digest. -/
def bytesToHex (bs : List Nat) : String :=
  String.mk (bs.flatMap fun b => [hexDigitChar ((b / 16) % 16), hexDigitChar (b % 16)])

/-- SHA-256 test vector: the empty string. -/
example :
    bytesToHex (sha256Bytes []) =
      "e3b0c44298fc1c149afbf4c8996fb92427ae41e4649b934ca495991b7852b855" := by
  decide

/-- SHA-256 test vector: "abc" = bytes `[97, 98, 99]`. -/
example :
    bytesToHex (sha256Bytes [97, 98, 99]) =
      "ba7816bf8f01cfea414140de5dae2223b00361a396177a9cb410ff61f20015ad" := by
  decide

/-! ## `profile.rs` — stream profiles -/

/-- `StreamIntent` (`#[repr(u8)]`, discriminants 0, 1, 2). -/
inductive StreamIntent
  | Auto
  | Realtime
  | Install
deriving DecidableEq

/-- The `u8` discriminant of an intent (`self.intent as u8`). -/
def StreamIntent.toByte : StreamIntent → Nat
  | .Auto => 0
  | .Realtime => 1
  | .Install => 2

/-- `ProfileError`. -/
inductive ProfileError
  | LatencyWeightOutOfRange
  | ResilienceWeightOutOfRange
  | ZeroTotalWeight
deriving DecidableEq

/-- `StreamProfile` (weights are `u8` in the source; embedded as `Nat`,
with the validation in `compile` bounding them at 100). -/
structure StreamProfile where
  intent : StreamIntent
  latency_weight : Nat
  resilience_weight : Nat
deriving DecidableEq

/-- `StreamProfile::auto()`. -/
def StreamProfile.auto : StreamProfile := ⟨.Auto, 50, 50⟩

/-- `StreamProfile::realtime()`. -/
def StreamProfile.realtime : StreamProfile := ⟨.Realtime, 80, 20⟩

/-- `StreamProfile::install()`. -/
def StreamProfile.install : StreamProfile := ⟨.Install, 25, 75⟩

/-- `CompiledStreamProfile`. -/
structure CompiledStreamProfile where
  intent : StreamIntent
  latency_weight : Nat
  resilience_weight : Nat
  config_id : String
deriving DecidableEq

/-- `StreamProfile::compile`. -/
def StreamProfile.compile (p : StreamProfile) :
    Except ProfileError CompiledStreamProfile :=
  if p.latency_weight > 100 then .error .LatencyWeightOutOfRange
  else if p.resilience_weight > 100 then .error .ResilienceWeightOutOfRange
  else if p.latency_weight = 0 ∧ p.resilience_weight = 0 then .error .ZeroTotalWeight
  else .ok
    { intent := p.intent
      latency_weight := p.latency_weight
      resilience_weight := p.resilience_weight
      config_id := bytesToHex (sha256Bytes
        [p.latency_weight, p.resilience_weight, p.intent.toByte]) }

/-- C8: `StreamProfile::compile` is deterministic — two profiles with equal
(intent, latency_weight, resilience_weight) that pass validation both compile
to the same `config_id`, the lowercase hex SHA-256 of
(latency_weight ‖ resilience_weight ‖ intent byte) — and the three built-in
profiles compile to pairwise distinct `config_id`s. -/
theorem compile_deterministic_builtins_distinct :
    (∀ p₁ p₂ : StreamProfile,
      p₁.intent = p₂.intent →
      p₁.latency_weight = p₂.latency_weight →
      p₁.resilience_weight = p₂.resilience_weight →
      p₁.latency_weight ≤ 100 →
      p₁.resilience_weight ≤ 100 →
      ¬(p₁.latency_weight = 0 ∧ p₁.resilience_weight = 0) →
      ∃ c₁ c₂, p₁.compile = .ok c₁ ∧ p₂.compile = .ok c₂ ∧
        c₁.config_id = c₂.config_id ∧
        c₁.config_id = bytesToHex (sha256Bytes
          [p₁.latency_weight, p₁.resilience_weight, p₁.intent.toByte])) ∧
    (∃ ca cr ci,
      StreamProfile.auto.compile = .ok ca ∧
      StreamProfile.realtime.compile = .ok cr ∧
      StreamProfile.install.compile = .ok ci ∧
      ca.config_id ≠ cr.config_id ∧
      ca.config_id ≠ ci.config_id ∧
      cr.config_id ≠ ci.config_id) := by
  constructor
  · intro p₁ p₂ hi hl hr hl100 hr100 hnz
    have hp : p₂ = p₁ := by
      cases p₁; cases p₂; simp_all
    rw [hp]
    have hc : p₁.compile = .ok
        ⟨p₁.intent, p₁.latency_weight, p₁.resilience_weight,
         bytesToHex (sha256Bytes
           [p₁.latency_weight, p₁.resilience_weight, p₁.intent.toByte])⟩ := by
      unfold StreamProfile.compile
      rw [if_neg (by omega), if_neg (by omega), if_neg hnz]
    exact ⟨_, _, hc, hc, rfl, rfl⟩
  · refine ⟨_, _, _, rfl, rfl, rfl, ?_, ?_, ?_⟩ <;> decide

/-- Witness for C8: the determinism branch applied to the concrete Auto
profile, and the distinctness branch instantiated. -/
theorem compile_deterministic_builtins_distinct_witness :
    ∃ c₁ c₂, StreamProfile.auto.compile = .ok c₁ ∧
      StreamProfile.auto.compile = .ok c₂ ∧
      c₁.config_id = c₂.config_id ∧
      c₁.config_id = bytesToHex (sha256Bytes [50, 50, 0]) :=
  compile_deterministic_builtins_distinct.1 StreamProfile.auto StreamProfile.auto
    rfl rfl rfl (by decide) (by decide) (by decide)

/-! ## `stream/network.rs` — network conditions tracker

`u64`/`u128` counters become `Nat` with explicit saturation; the `f64`
metric ratios become `ℚ` (the divisions of the source are exact rational
divisions of small integer counters). -/

/-- `u64::MAX`. -/
def u64Max : Nat := 18446744073709551615

/-- `u128::MAX`. -/
def u128Max : Nat := 340282366920938463463374607431768211455

/-- `u64::saturating_add`. -/
def satAdd64 (x y : Nat) : Nat := min (x + y) u64Max

/-- `u128::saturating_add`. -/
def satAdd128 (x y : Nat) : Nat := min (x + y) u128Max

/-- `NetworkMetrics` (`f64` fields as `ℚ`). -/
structure NetworkMetrics where
  loss_ratio : ℚ
  late_frame_rate : ℚ
  jitter_ms : Option ℚ

/-- `NetworkConditions`. -/
structure NetworkConditions where
  last_sequence : Option Nat
  total_expected : Nat
  observed_frames : Nat
  lost_frames : Nat
  late_frames : Nat
  last_arrival : Option Nat
  last_interval : Option Nat
  total_jitter_ns : Nat
  jitter_samples : Nat
  max_loss_gap : Nat

/-- `NetworkConditions::new()`. -/
def NetworkConditions.new : NetworkConditions :=
  ⟨none, 0, 0, 0, 0, none, none, 0, 0, 0⟩

/-- `NetworkConditions::record_frame`. -/
def NetworkConditions.record_frame (c : NetworkConditions)
    (sequence arrival_us deadline_us : Nat) : NetworkConditions :=
  match c.last_sequence with
  | some last_seq =>
    if sequence ≤ last_seq then c
    else
      let delta := sequence - last_seq
      let c := { c with
        total_expected := satAdd64 c.total_expected delta
        lost_frames := if delta > 1 then satAdd64 c.lost_frames (delta - 1)
          else c.lost_frames
        max_loss_gap := if delta > 1 then max c.max_loss_gap (delta - 1)
          else c.max_loss_gap }
      recordArrival c sequence arrival_us deadline_us
  | none =>
    let c := { c with total_expected := satAdd64 c.total_expected 1 }
    recordArrival c sequence arrival_us deadline_us
where
  /-- The tail of `record_frame` after the sequence bookkeeping (shared by
  both branches of the source, which falls through to it). -/
  recordArrival (c : NetworkConditions) (sequence arrival_us deadline_us : Nat) :
      NetworkConditions :=
    let c := { c with
      last_sequence := some sequence
      observed_frames := satAdd64 c.observed_frames 1
      late_frames := if arrival_us > deadline_us then satAdd64 c.late_frames 1
        else c.late_frames }
    match c.last_arrival with
    | some last =>
      let interval := arrival_us - last
      let c := match c.last_interval with
        | some prev_interval =>
          let jitter := if interval > prev_interval then interval - prev_interval
            else prev_interval - interval
          { c with
            total_jitter_ns := satAdd128 c.total_jitter_ns jitter
            jitter_samples := satAdd64 c.jitter_samples 1 }
        | none => c
      { c with last_interval := some interval, last_arrival := some arrival_us }
    | none => { c with last_arrival := some arrival_us }

/-- `NetworkConditions::metrics()`. -/
def NetworkConditions.metrics (c : NetworkConditions) : NetworkMetrics :=
  let total_expected := max c.total_expected c.observed_frames
  let loss_ratio : ℚ := if total_expected = 0 then 0
    else mkRat c.lost_frames total_expected
  let late_frame_rate : ℚ := if c.observed_frames = 0 then 0
    else mkRat c.late_frames c.observed_frames
  let jitter_ms : Option ℚ := if c.jitter_samples = 0 then none
    else some (mkRat c.total_jitter_ns (c.jitter_samples * 1000))
  ⟨loss_ratio, late_frame_rate, jitter_ms⟩

/-- `NetworkConditions::max_loss_gap()`. -/
def NetworkConditions.maxLossGap (c : NetworkConditions) : Nat := c.max_loss_gap

/-! ## `stream/recovery.rs` — recovery monitor -/

/-- `SUSTAINED_LOSS_THRESHOLD = 0.25`. -/
def sustainedLossThreshold : ℚ := mkRat 1 4

/-- `RECOVERY_CLEAR_LOSS_THRESHOLD = 0.05`. -/
def recoveryClearLossThreshold : ℚ := mkRat 1 20

/-- `BURST_LOSS_THRESHOLD = 3`. -/
def burstLossThreshold : Nat := 3

/-- `RECOVERY_CLEAR_BURST_THRESHOLD = 1`. -/
def recoveryClearBurstThreshold : Nat := 1

/-- `RecoveryReason`. -/
inductive RecoveryReason
  | SustainedLoss
  | BurstLoss
deriving DecidableEq

/-- `RecoveryEvent`. -/
inductive RecoveryEvent
  | RecoveryStarted (reason : RecoveryReason)
  | RecoveryComplete (reason : RecoveryReason)
deriving DecidableEq

/-- `RecoveryState`. -/
inductive RecoveryState
  | Idle
  | Recovering (reason : RecoveryReason)
deriving DecidableEq

/-- `RecoveryMonitor::feed` as a function of the monitor's state, returning
the next state and the emitted event (the source mutates `self.state`). -/
def RecoveryMonitor.feed (state : RecoveryState) (conditions : NetworkConditions) :
    RecoveryState × Option RecoveryEvent :=
  let metrics := conditions.metrics
  let gap := conditions.maxLossGap
  match state with
  | .Idle =>
    if gap ≥ burstLossThreshold then
      (.Recovering .BurstLoss, some (.RecoveryStarted .BurstLoss))
    else if metrics.loss_ratio ≥ sustainedLossThreshold then
      (.Recovering .SustainedLoss, some (.RecoveryStarted .SustainedLoss))
    else (state, none)
  | .Recovering reason =>
    if metrics.loss_ratio ≤ recoveryClearLossThreshold ∧
        gap ≤ recoveryClearBurstThreshold then
      (.Idle, some (.RecoveryComplete reason))
    else (state, none)

/-! ## `stream/adaptive.rs` — adaptation state machine -/

/-- `DWELL_FRAMES = 8`. -/
def dwellFrames : Nat := 8

/-- `LOSS_THRESHOLD_KEYFRAME = 0.30`. -/
def lossThresholdKeyframe : ℚ := mkRat 3 10

/-- `LOSS_THRESHOLD_DISABLE = 0.50`. -/
def lossThresholdDisable : ℚ := mkRat 1 2

/-- `LATE_THRESHOLD_DELTA = 0.20`. -/
def lateThresholdDelta : ℚ := mkRat 1 5

/-- `JITTER_THRESHOLD_DELTA = 5.0`. -/
def jitterThresholdDelta : ℚ := 5

/-- `JITTER_TIGHTEN = 8.0`. -/
def jitterTighten : ℚ := 8

/-- `JITTER_RELAX = 3.0`. -/
def jitterRelax : ℚ := 3

/-- `BURST_THRESHOLD_KEYFRAME = 5`. -/
def burstThresholdKeyframe : Nat := 5

/-- `BURST_THRESHOLD_DISABLE = 8`. -/
def burstThresholdDisable : Nat := 8

/-- `BURST_THRESHOLD_DEGRADE = 10`. -/
def burstThresholdDegrade : Nat := 10

/-- `LOSS_THRESHOLD_DEGRADE = 0.60`. -/
def lossThresholdDegrade : ℚ := mkRat 3 5

/-- `DEADLINE_STEP_MS = 10` (`i16`). -/
def deadlineStepMs : Int := 10

/-- `u32::saturating_add` by one, for `frames_in_state`. -/
def satAdd32One (x : Nat) : Nat := min (x + 1) 4294967295

/-- `AdaptationSnapshot` (`u8`, `u8`, `i16` fields). -/
structure AdaptationSnapshot where
  keyframe_interval : Nat
  delta_depth : Nat
  deadline_offset_ms : Int
deriving DecidableEq

/-- `ProfileBounds`. -/
structure ProfileBounds where
  min_keyframe_interval : Nat
  base_keyframe_interval : Nat
  min_delta_depth : Nat
  base_delta_depth : Nat
  max_deadline_offset : Int
  min_deadline_offset : Int
deriving DecidableEq

/-- `ProfileBounds::for_intent`. -/
def ProfileBounds.forIntent : StreamIntent → ProfileBounds
  | .Auto => ⟨6, 10, 1, 3, 15, -15⟩
  | .Realtime => ⟨8, 12, 1, 2, 0, -20⟩
  | .Install => ⟨4, 8, 0, 3, 25, -10⟩

/-- `AdaptationState`. -/
structure AdaptationState where
  profile_intent : StreamIntent
  keyframe_interval : Nat
  delta_depth : Nat
  deadline_offset_ms : Int
  frames_in_state : Nat
  degraded_safe : Bool
  last_safe_snapshot : Option AdaptationSnapshot
deriving DecidableEq

/-- `AdaptationSnapshot::from_state`. -/
def AdaptationSnapshot.fromState (state : AdaptationState) : AdaptationSnapshot :=
  ⟨state.keyframe_interval, state.delta_depth, state.deadline_offset_ms⟩

/-- `AdaptationState::baseline`. -/
def AdaptationState.baseline (profile : StreamProfile) : AdaptationState :=
  let intent := profile.intent
  let bounds := ProfileBounds.forIntent intent
  { profile_intent := intent
    keyframe_interval := bounds.base_keyframe_interval
    delta_depth := bounds.base_delta_depth
    deadline_offset_ms := 0
    frames_in_state := dwellFrames
    degraded_safe := false
    last_safe_snapshot := none }

/-- `AdaptationState::would_violate_bounds`. -/
def wouldViolateBounds (bounds : ProfileBounds)
    (next_interval next_delta : Nat) (next_deadline : Int) : Prop :=
  next_interval < bounds.min_keyframe_interval ∨
  next_delta < bounds.min_delta_depth ∨
  next_deadline < bounds.min_deadline_offset ∨
  next_deadline > bounds.max_deadline_offset

instance (bounds : ProfileBounds) (ni nd : Nat) (ndl : Int) :
    Decidable (wouldViolateBounds bounds ni nd ndl) := by
  unfold wouldViolateBounds; infer_instance

/-- `DegradedReason`. -/
inductive DegradedReason
  | ExceededProfileBounds
  | UnrecoverableBurst
deriving DecidableEq

/-- `AdaptationEvent`. -/
inductive AdaptationEvent
  | KeyframeCadenceIncreased
  | DeltaDepthReduced
  | DeltaDisabled
  | DeadlineAdjusted
  | EnteredDegradedSafe (reason : DegradedReason)
  | ExitedDegradedSafe
deriving DecidableEq

/-- `AdaptationDecision`. -/
structure AdaptationDecision where
  state : AdaptationState
  event : Option AdaptationEvent

/-- `decide_next_state`. -/
def decideNextState (current : AdaptationState) (network : NetworkConditions)
    (recovery : Option RecoveryReason) (profile : StreamProfile) :
    AdaptationDecision :=
  let next := { current with frames_in_state := satAdd32One current.frames_in_state }
  let bounds := ProfileBounds.forIntent profile.intent
  let metrics := network.metrics
  let gap := network.maxLossGap
  if current.degraded_safe then
    if metrics.loss_ratio ≤ lossThresholdDisable ∧ gap ≤ burstThresholdDisable ∧
        recovery = none then
      let next := match current.last_safe_snapshot with
        | some snapshot =>
          { next with
            keyframe_interval := snapshot.keyframe_interval
            delta_depth := snapshot.delta_depth
            deadline_offset_ms := snapshot.deadline_offset_ms }
        | none => next
      ⟨{ next with degraded_safe := false, frames_in_state := 0 },
        some .ExitedDegradedSafe⟩
    else ⟨next, none⟩
  else if metrics.loss_ratio ≥ lossThresholdDegrade ∧ gap ≥ burstThresholdDegrade then
    ⟨{ next with
        degraded_safe := true
        last_safe_snapshot := some (AdaptationSnapshot.fromState current)
        frames_in_state := 0 },
      some (.EnteredDegradedSafe .UnrecoverableBurst)⟩
  else if next.frames_in_state < dwellFrames then ⟨next, none⟩
  else
    let jitter_ms := metrics.jitter_ms.getD 0
    if gap ≥ burstThresholdDisable ∧ recovery = some .BurstLoss ∧
        current.delta_depth > bounds.min_delta_depth then
      if wouldViolateBounds bounds current.keyframe_interval 0
          current.deadline_offset_ms then
        ⟨{ next with
            degraded_safe := true
            last_safe_snapshot := some (AdaptationSnapshot.fromState current)
            frames_in_state := 0 },
          some (.EnteredDegradedSafe .ExceededProfileBounds)⟩
      else
        ⟨{ next with delta_depth := 0, frames_in_state := 0 }, some .DeltaDisabled⟩
    else if metrics.loss_ratio ≥ lossThresholdKeyframe ∨
        gap ≥ burstThresholdKeyframe then
      let next_interval := current.keyframe_interval - 1
      if next_interval < bounds.min_keyframe_interval then
        ⟨{ next with
            degraded_safe := true
            last_safe_snapshot := some (AdaptationSnapshot.fromState current)
            frames_in_state := 0 },
          some (.EnteredDegradedSafe .ExceededProfileBounds)⟩
      else
        ⟨{ next with keyframe_interval := next_interval, frames_in_state := 0 },
          some .KeyframeCadenceIncreased⟩
    else if metrics.late_frame_rate ≥ lateThresholdDelta ∧
        jitter_ms > jitterThresholdDelta ∧
        current.delta_depth > bounds.min_delta_depth then
      let next_delta := current.delta_depth - 1
      if next_delta < bounds.min_delta_depth then
        ⟨{ next with
            degraded_safe := true
            last_safe_snapshot := some (AdaptationSnapshot.fromState current)
            frames_in_state := 0 },
          some (.EnteredDegradedSafe .ExceededProfileBounds)⟩
      else
        ⟨{ next with delta_depth := next_delta, frames_in_state := 0 },
          some .DeltaDepthReduced⟩
    else if jitter_ms > jitterTighten then
      let next_deadline := current.deadline_offset_ms - deadlineStepMs
      if next_deadline < bounds.min_deadline_offset then
        ⟨{ next with
            degraded_safe := true
            last_safe_snapshot := some (AdaptationSnapshot.fromState current)
            frames_in_state := 0 },
          some (.EnteredDegradedSafe .ExceededProfileBounds)⟩
      else
        ⟨{ next with deadline_offset_ms := next_deadline, frames_in_state := 0 },
          some .DeadlineAdjusted⟩
    else if jitter_ms < jitterRelax then
      let next_deadline := current.deadline_offset_ms + deadlineStepMs
      if next_deadline > bounds.max_deadline_offset then
        ⟨{ next with
            degraded_safe := true
            last_safe_snapshot := some (AdaptationSnapshot.fromState current)
            frames_in_state := 0 },
          some (.EnteredDegradedSafe .ExceededProfileBounds)⟩
      else
        ⟨{ next with deadline_offset_ms := next_deadline, frames_in_state := 0 },
          some .DeadlineAdjusted⟩
    else ⟨next, none⟩

/-! ## Claims about the adaptation engine and the telemetry trackers -/

/-- The triple `(keyframe_interval, delta_depth, deadline_offset_ms)` lies
inside the given `ProfileBounds`. -/
def inProfileBounds (bounds : ProfileBounds) (kf dd : Nat) (dl : Int) : Prop :=
  bounds.min_keyframe_interval ≤ kf ∧ bounds.min_delta_depth ≤ dd ∧
  bounds.min_deadline_offset ≤ dl ∧ dl ≤ bounds.max_deadline_offset

instance (bounds : ProfileBounds) (kf dd : Nat) (dl : Int) :
    Decidable (inProfileBounds bounds kf dd dl) := by
  unfold inProfileBounds; infer_instance

/-- Inductive invariant of `decide_next_state`: the state's parameter triple
is in bounds, and so is any saved snapshot. -/
def AdaptationInv (bounds : ProfileBounds) (s : AdaptationState) : Prop :=
  inProfileBounds bounds s.keyframe_interval s.delta_depth s.deadline_offset_ms ∧
  ∀ snap, s.last_safe_snapshot = some snap →
    inProfileBounds bounds snap.keyframe_interval snap.delta_depth
      snap.deadline_offset_ms

/-- States reachable from `AdaptationState::baseline(profile)` by finitely
many `decide_next_state` calls with the same profile. -/
inductive ReachableAdaptation (profile : StreamProfile) : AdaptationState → Prop
  | base : ReachableAdaptation profile (AdaptationState.baseline profile)
  | step (s : AdaptationState) (network : NetworkConditions)
      (recovery : Option RecoveryReason) :
      ReachableAdaptation profile s →
      ReachableAdaptation profile (decideNextState s network recovery profile).state

/-- The baseline state satisfies the invariant, for every profile. -/
theorem baseline_inv (profile : StreamProfile) :
    AdaptationInv (ProfileBounds.forIntent profile.intent)
      (AdaptationState.baseline profile) := by
  refine ⟨?_, fun snap h => by simp [AdaptationState.baseline] at h⟩
  rcases profile with ⟨i, lw, rw⟩
  cases i <;>
    simp [AdaptationState.baseline, ProfileBounds.forIntent, inProfileBounds,
      dwellFrames]

/-- `decide_next_state` preserves the invariant. -/
theorem decideNextState_inv (current : AdaptationState)
    (network : NetworkConditions) (recovery : Option RecoveryReason)
    (profile : StreamProfile)
    (h : AdaptationInv (ProfileBounds.forIntent profile.intent) current) :
    AdaptationInv (ProfileBounds.forIntent profile.intent)
      (decideNextState current network recovery profile).state := by
  obtain ⟨hb, hsnap⟩ := h
  unfold decideNextState
  simp only
  split
  · -- degraded_safe
    split
    · -- exit branch: restore the snapshot (if any)
      split
      · rename_i snap hsome
        exact ⟨hsnap snap hsome, fun sn h => hsnap sn h⟩
      · exact ⟨hb, fun sn h => hsnap sn h⟩
    · exact ⟨hb, fun sn h => hsnap sn h⟩
  · split
    · -- catastrophic latch
      refine ⟨hb, fun sn h => ?_⟩
      simp only [Option.some.injEq] at h
      subst h
      exact hb
    · split
      · -- dwell guard
        exact ⟨hb, fun sn h => hsnap sn h⟩
      · split
        · -- delta disable
          split
          · refine ⟨hb, fun sn h => ?_⟩
            simp only [Option.some.injEq] at h
            subst h
            exact hb
          · rename_i hnv
            unfold wouldViolateBounds at hnv
            push_neg at hnv
            exact ⟨⟨hb.1, hnv.2.1, hb.2.2⟩, fun sn h => hsnap sn h⟩
        · split
          · -- keyframe tighten
            split
            · refine ⟨hb, fun sn h => ?_⟩
              simp only [Option.some.injEq] at h
              subst h
              exact hb
            · rename_i hge
              exact ⟨⟨Nat.not_lt.mp hge, hb.2⟩, fun sn h => hsnap sn h⟩
          · split
            · -- delta depth reduce
              split
              · refine ⟨hb, fun sn h => ?_⟩
                simp only [Option.some.injEq] at h
                subst h
                exact hb
              · rename_i hge
                exact ⟨⟨hb.1, Nat.not_lt.mp hge, hb.2.2⟩, fun sn h => hsnap sn h⟩
            · split
              · -- deadline tighten
                split
                · refine ⟨hb, fun sn h => ?_⟩
                  simp only [Option.some.injEq] at h
                  subst h
                  exact hb
                · rename_i hge
                  refine ⟨⟨hb.1, hb.2.1, Int.not_lt.mp hge, ?_⟩,
                    fun sn h => hsnap sn h⟩
                  have h5 := hb.2.2.2
                  show current.deadline_offset_ms - deadlineStepMs ≤ _
                  unfold deadlineStepMs
                  omega
              · split
                · -- deadline relax
                  split
                  · refine ⟨hb, fun sn h => ?_⟩
                    simp only [Option.some.injEq] at h
                    subst h
                    exact hb
                  · rename_i hle
                    refine ⟨⟨hb.1, hb.2.1, ?_, Int.not_lt.mp hle⟩,
                      fun sn h => hsnap sn h⟩
                    have h5 := hb.2.2.1
                    show _ ≤ current.deadline_offset_ms + deadlineStepMs
                    unfold deadlineStepMs
                    omega
                · exact ⟨hb, fun sn h => hsnap sn h⟩

/-- Every reachable state satisfies the invariant. -/
theorem reachable_inv (profile : StreamProfile) (s : AdaptationState)
    (h : ReachableAdaptation profile s) :
    AdaptationInv (ProfileBounds.forIntent profile.intent) s := by
  induction h with
  | base => exact baseline_inv profile
  | step s network recovery _ ih => exact decideNextState_inv s network recovery profile ih

/-- C1: from any state reachable from `AdaptationState::baseline(profile)` by
`decide_next_state` calls (same profile throughout), the state returned by a
further call has its `(keyframe_interval, delta_depth, deadline_offset_ms)`
inside `ProfileBounds::for_intent(profile.intent())`, or `degraded_safe` set.
(In fact the invariant proved is stronger: the triple is always in bounds.) -/
theorem decide_next_state_bounds_or_degraded (profile : StreamProfile)
    (s : AdaptationState) (h : ReachableAdaptation profile s)
    (network : NetworkConditions) (recovery : Option RecoveryReason) :
    inProfileBounds (ProfileBounds.forIntent profile.intent)
      (decideNextState s network recovery profile).state.keyframe_interval
      (decideNextState s network recovery profile).state.delta_depth
      (decideNextState s network recovery profile).state.deadline_offset_ms ∨
    (decideNextState s network recovery profile).state.degraded_safe = true :=
  Or.inl (decideNextState_inv s network recovery profile
    (reachable_inv profile s h)).1

/-- Witness for C1: the bound holds for the first decision taken from the
Auto baseline on a fresh tracker. -/
theorem decide_next_state_bounds_or_degraded_witness :
    inProfileBounds (ProfileBounds.forIntent StreamProfile.auto.intent)
      (decideNextState (AdaptationState.baseline StreamProfile.auto)
        NetworkConditions.new none StreamProfile.auto).state.keyframe_interval
      (decideNextState (AdaptationState.baseline StreamProfile.auto)
        NetworkConditions.new none StreamProfile.auto).state.delta_depth
      (decideNextState (AdaptationState.baseline StreamProfile.auto)
        NetworkConditions.new none StreamProfile.auto).state.deadline_offset_ms ∨
    (decideNextState (AdaptationState.baseline StreamProfile.auto)
      NetworkConditions.new none StreamProfile.auto).state.degraded_safe = true :=
  decide_next_state_bounds_or_degraded StreamProfile.auto
    (AdaptationState.baseline StreamProfile.auto) ReachableAdaptation.base
    NetworkConditions.new none

/-- A tracker fed the arrival sequence 1, 3, 5, 7, 9, 11 (every other frame
lost): `total_expected = 11`, `lost_frames = 5`, `loss_ratio = 5/11 ≥ 0.30`,
`max_loss_gap = 1`. -/
def lossyConditions : NetworkConditions :=
  (((((NetworkConditions.new.record_frame 1 0 0).record_frame 3 1000 0
    ).record_frame 5 2000 0).record_frame 7 3000 0).record_frame 9 4000 0
    ).record_frame 11 5000 0

/-- Counterexample for C5 as stated: an input state with
`frames_in_state = 7 < DWELL_FRAMES` and `degraded_safe = false` still has
its `keyframe_interval` mutated (7 + 1 = 8 is not `< DWELL_FRAMES`, so the
dwell guard does not fire after the per-call increment). -/
theorem dwell_guard_counterexample :
    (⟨.Auto, 10, 3, 0, 7, false, none⟩ : AdaptationState).frames_in_state <
      dwellFrames ∧
    (decideNextState ⟨.Auto, 10, 3, 0, 7, false, none⟩ lossyConditions none
        StreamProfile.auto).state.keyframe_interval ≠
      (⟨.Auto, 10, 3, 0, 7, false, none⟩ : AdaptationState).keyframe_interval := by
  constructor
  · decide
  · decide

/-- C5 (amended): if the input state's `frames_in_state` is small enough that
the dwell guard still applies after the per-call increment
(`frames_in_state + 1 < DWELL_FRAMES`) and the input is not in degraded-safe
(whose exit path restores snapshot parameters regardless of dwell), then the
returned `keyframe_interval`, `delta_depth` and `deadline_offset_ms` equal the
input's, for every network input, recovery reason and profile. -/
theorem dwell_guard_no_mutation (s : AdaptationState)
    (network : NetworkConditions) (recovery : Option RecoveryReason)
    (profile : StreamProfile)
    (hf : s.frames_in_state + 1 < dwellFrames)
    (hd : s.degraded_safe = false) :
    (decideNextState s network recovery profile).state.keyframe_interval =
      s.keyframe_interval ∧
    (decideNextState s network recovery profile).state.delta_depth =
      s.delta_depth ∧
    (decideNextState s network recovery profile).state.deadline_offset_ms =
      s.deadline_offset_ms := by
  have hsat : satAdd32One s.frames_in_state < dwellFrames := by
    unfold satAdd32One dwellFrames at *
    omega
  by_cases hc : network.metrics.loss_ratio ≥ lossThresholdDegrade ∧
      network.maxLossGap ≥ burstThresholdDegrade
  · simp [decideNextState, hd, hc]
  · simp [decideNextState, hd, hc, hsat]

/-- Witness for C5 (amended): a state three frames into its dwell window is
returned unchanged in all three parameters. -/
theorem dwell_guard_no_mutation_witness :
    (decideNextState ⟨.Auto, 10, 3, 0, 3, false, none⟩ lossyConditions none
        StreamProfile.auto).state.keyframe_interval = 10 ∧
    (decideNextState ⟨.Auto, 10, 3, 0, 3, false, none⟩ lossyConditions none
        StreamProfile.auto).state.delta_depth = 3 ∧
    (decideNextState ⟨.Auto, 10, 3, 0, 3, false, none⟩ lossyConditions none
        StreamProfile.auto).state.deadline_offset_ms = 0 :=
  dwell_guard_no_mutation ⟨.Auto, 10, 3, 0, 3, false, none⟩ lossyConditions
    none StreamProfile.auto (by decide) rfl

/-- C6: `RecoveryMonitor::feed` returns at most one event per call (its
result type), and: `RecoveryStarted(r)` is returned only on an
Idle-to-Recovering(r) edge; `RecoveryComplete(r)` only on a
Recovering(r)-to-Idle edge; while recovering, no Started event of any kind
is emitted; while recovering, input that does not meet the clear thresholds
returns `None` and keeps the state; and in Idle, when the burst threshold
and the sustained threshold hold simultaneously, BurstLoss is selected. -/
theorem recovery_feed_edges (s : RecoveryState) (c : NetworkConditions) :
    (∀ r, (RecoveryMonitor.feed s c).2 = some (.RecoveryStarted r) →
      s = .Idle ∧ (RecoveryMonitor.feed s c).1 = .Recovering r) ∧
    (∀ r, (RecoveryMonitor.feed s c).2 = some (.RecoveryComplete r) →
      s = .Recovering r ∧ (RecoveryMonitor.feed s c).1 = .Idle) ∧
    (∀ r r', s = .Recovering r →
      (RecoveryMonitor.feed s c).2 ≠ some (.RecoveryStarted r')) ∧
    (∀ r, s = .Recovering r →
      ¬(c.metrics.loss_ratio ≤ recoveryClearLossThreshold ∧
        c.maxLossGap ≤ recoveryClearBurstThreshold) →
      (RecoveryMonitor.feed s c).2 = none ∧ (RecoveryMonitor.feed s c).1 = s) ∧
    (s = .Idle → c.maxLossGap ≥ burstLossThreshold →
      c.metrics.loss_ratio ≥ sustainedLossThreshold →
      (RecoveryMonitor.feed s c).2 = some (.RecoveryStarted .BurstLoss)) := by
  cases s with
  | Idle =>
    by_cases hb : c.maxLossGap ≥ burstLossThreshold
    · refine ⟨?_, ?_, ?_, ?_, ?_⟩ <;>
        simp [RecoveryMonitor.feed, hb]
    · by_cases hs : c.metrics.loss_ratio ≥ sustainedLossThreshold
      · refine ⟨?_, ?_, ?_, ?_, ?_⟩ <;>
          simp [RecoveryMonitor.feed, hb, hs]
      · refine ⟨?_, ?_, ?_, ?_, ?_⟩ <;>
          simp [RecoveryMonitor.feed, hb, hs]
  | Recovering reason =>
    by_cases hclear : c.metrics.loss_ratio ≤ recoveryClearLossThreshold ∧
        c.maxLossGap ≤ recoveryClearBurstThreshold
    · refine ⟨?_, ?_, ?_, ?_, ?_⟩ <;>
        simp [RecoveryMonitor.feed, hclear]
    · refine ⟨?_, ?_, ?_, ?_, ?_⟩ <;>
        simp [RecoveryMonitor.feed, hclear]

/-- Witness for C6: in Idle, with a tracker that saw frames 1 then 5 (gap 3,
loss ratio 3/5: both thresholds hold), BurstLoss is selected. -/
theorem recovery_feed_edges_witness :
    (RecoveryMonitor.feed .Idle
      ((NetworkConditions.new.record_frame 1 0 0).record_frame 5 1000 0)).2 =
      some (.RecoveryStarted .BurstLoss) :=
  (recovery_feed_edges .Idle
      ((NetworkConditions.new.record_frame 1 0 0).record_frame 5 1000 0)).2.2.2.2
    rfl (by decide) (by decide)

/-- `record_frame`'s arrival bookkeeping does not touch `max_loss_gap`. -/
theorem recordArrival_gap (c : NetworkConditions) (seq arr dl : Nat) :
    (NetworkConditions.record_frame.recordArrival c seq arr dl).max_loss_gap =
      c.max_loss_gap := by
  unfold NetworkConditions.record_frame.recordArrival
  rcases c with ⟨ls, te, obs, lf, late, la, li, tj, js, gap⟩
  cases la <;> cases li <;> simp

/-- C9: `max_loss_gap` is monotonically non-decreasing: across one
`record_frame` call, and hence across any finite sequence of calls; and a
tracker whose `max_loss_gap` has reached 2 can never make
`RecoveryMonitor::feed` return `RecoveryComplete` (the clear condition
needs `max_loss_gap ≤ 1`). -/
theorem max_loss_gap_monotone (c : NetworkConditions) :
    (∀ seq arr dl, c.max_loss_gap ≤
      (c.record_frame seq arr dl).max_loss_gap) ∧
    (∀ calls : List (Nat × Nat × Nat), c.max_loss_gap ≤
      (calls.foldl (fun acc t => acc.record_frame t.1 t.2.1 t.2.2)
        c).max_loss_gap) ∧
    (∀ s r, 2 ≤ c.max_loss_gap →
      (RecoveryMonitor.feed s c).2 ≠ some (.RecoveryComplete r)) := by
  have mono : ∀ (c' : NetworkConditions) seq arr dl, c'.max_loss_gap ≤
      (c'.record_frame seq arr dl).max_loss_gap := by
    intro c' seq arr dl
    unfold NetworkConditions.record_frame
    cases hls : c'.last_sequence with
    | none => rw [recordArrival_gap]
    | some last_seq =>
      simp only
      split
      · exact le_refl _
      · rw [recordArrival_gap]
        split <;> simp
  refine ⟨mono c, ?_, ?_⟩
  · intro calls
    induction calls generalizing c with
    | nil => exact le_refl _
    | cons t rest ih =>
      exact le_trans (mono c t.1 t.2.1 t.2.2) (ih _)
  · intro s r hgap
    have hclear : ¬(c.metrics.loss_ratio ≤ recoveryClearLossThreshold ∧
        c.maxLossGap ≤ recoveryClearBurstThreshold) := by
      intro h
      unfold recoveryClearBurstThreshold NetworkConditions.maxLossGap at h
      omega
    cases s with
    | Idle =>
      by_cases hb : c.maxLossGap ≥ burstLossThreshold
      · simp [RecoveryMonitor.feed, hb]
      · by_cases hs : c.metrics.loss_ratio ≥ sustainedLossThreshold <;>
          simp [RecoveryMonitor.feed, hb, hs]
    | Recovering reason =>
      simp [RecoveryMonitor.feed, hclear]

/-- Witness for C9: monotonicity at a fresh tracker and the blocked
completion at a tracker that saw frames 1 then 4 (`max_loss_gap = 2`). -/
theorem max_loss_gap_monotone_witness :
    NetworkConditions.new.max_loss_gap ≤
      (NetworkConditions.new.record_frame 1 0 0).max_loss_gap ∧
    (RecoveryMonitor.feed (.Recovering .BurstLoss)
        ((NetworkConditions.new.record_frame 1 0 0).record_frame 4 1000 0)).2 ≠
      some (.RecoveryComplete .BurstLoss) :=
  ⟨(max_loss_gap_monotone NetworkConditions.new).1 1 0 0,
   (max_loss_gap_monotone
      ((NetworkConditions.new.record_frame 1 0 0).record_frame 4 1000 0)).2.2
     (.Recovering .BurstLoss) .BurstLoss (by decide)⟩

/-! ## `handshake/transport.rs` — `ReliableControlChannel` -/

/-- `u64::wrapping_add`. -/
def wrapAdd64 (x y : Nat) : Nat := (x + y) % 18446744073709551616

/-- `max_attempts = 5` (set by `ReliableControlChannel::new`). -/
def maxAttempts : Nat := 5

/-- `drop_threshold = 5` (set by `ReliableControlChannel::new`). -/
def dropThreshold : Nat := 5

/-- `base_timeout = Duration::from_millis(200)`, in nanoseconds. -/
def baseTimeoutNs : Nat := 200000000

/-- The largest value a `Duration` holds, in nanoseconds
(`u64::MAX` seconds plus `999_999_999` nanoseconds). -/
def durationMaxNs : Nat := u64Max * 1000000000 + 999999999

/-- `u32::saturating_pow` for base 2 (`2u32.saturating_pow(e)`). -/
def satPowU32 (b e : Nat) : Nat := min (b ^ e) 4294967295

/-- `Duration::checked_mul` on nanosecond counts (`None` on overflow). -/
def durationCheckedMulNs (ns k : Nat) : Option Nat :=
  if ns * k ≤ durationMaxNs then some (ns * k) else none

/-- The receive timeout used on a given attempt number (`attempt ≥ 1`):
`base_timeout.checked_mul(2u32.saturating_pow(attempt - 1)).unwrap_or(base_timeout * 4)`. -/
def recvTimeoutNs (attempt : Nat) : Nat :=
  match durationCheckedMulNs baseTimeoutNs (satPowU32 2 (attempt - 1)) with
  | some d => d
  | none => baseTimeoutNs * 4

/-- Counterexample for C4 as stated: the fourth attempt waits
`200 ms × 2³ = 1600 ms`, not the claimed saturation at `800 ms`
(`unwrap_or(base_timeout * 4)` is an overflow fallback, not a cap). -/
theorem recv_timeout_counterexample :
    recvTimeoutNs 4 = 1600000000 ∧ ¬(recvTimeoutNs 4 ≤ 800000000) := by
  decide

/-- C4 (amended): the receive wait on attempt `n ≥ 1` equals
`base_timeout × min(2^(n−1), u32::MAX)` — exponential backoff with no 800 ms
cap; the `unwrap_or(base_timeout × 4)` branch handles only `Duration`
overflow, which cannot occur because the multiplier saturates at `u32::MAX`.
In particular attempts 4 and 5 wait 1600 ms and 3200 ms. -/
theorem recv_timeout_formula (attempt : Nat) (h : 1 ≤ attempt) :
    recvTimeoutNs attempt = baseTimeoutNs * min (2 ^ (attempt - 1)) 4294967295 := by
  have hmin : min (2 ^ (attempt - 1)) 4294967295 ≤ 4294967295 :=
    Nat.min_le_right _ _
  have hle : baseTimeoutNs * min (2 ^ (attempt - 1)) 4294967295 ≤ durationMaxNs := by
    calc baseTimeoutNs * min (2 ^ (attempt - 1)) 4294967295
        ≤ baseTimeoutNs * 4294967295 := Nat.mul_le_mul_left _ hmin
      _ ≤ durationMaxNs := by norm_num [durationMaxNs, baseTimeoutNs, u64Max]
  unfold recvTimeoutNs durationCheckedMulNs satPowU32
  rw [if_pos hle]

/-- Witness for C4 (amended): the first attempt waits `200 ms × 1`. -/
theorem recv_timeout_formula_witness :
    recvTimeoutNs 1 = baseTimeoutNs * min (2 ^ 0) 4294967295 :=
  recv_timeout_formula 1 (by decide)

/-- `HandshakeError` (the variants the control channel uses; payloads are the
error strings). -/
inductive HandshakeErrorModel
  | Protocol (msg : String)
  | Authentication (msg : String)
  | Transport (msg : String)
deriving DecidableEq

/-- The error `send_reliable` returns when the retransmit limit is hit. -/
def retransmitError : HandshakeErrorModel :=
  .Transport "control channel retransmit limit exceeded"

/-- Modelled from the spec: `Acknowledge` of `messages.rs` is not under
`src/`; per the spec it is `{message_type, session_id, seq (echoes envelope),
ok (bool), detail?, mac}` — the model carries the two fields `send_reliable`
inspects, `seq` and `ok`. -/
structure AckModel where
  seq : Nat
  ok : Bool
deriving DecidableEq

/-- One receive outcome inside the `send_reliable` loop: an `Ack` message, a
`Keepalive` message, or anything that falls to the catch-all arm (receive
timeout, transport error, or an unexpected message kind). -/
inductive RecvEvent
  | ack (seq : Nat) (ok : Bool)
  | keepalive
  | failure
deriving DecidableEq

/-- The tail of the `send_reliable` loop after the transport stops yielding
events: every receive times out, so each iteration lands in the catch-all arm
until `attempt ≥ max_attempts`. Structural recursion on a fuel of
`maxAttempts` (sufficient: `attempt` only increases once events are
exhausted); the fuel-0 fallback returns the same error. -/
def sendReliableDrain : Nat → Nat → Nat → Nat × Except HandshakeErrorModel AckModel
  | 0, _, sends => (sends, .error retransmitError)
  | fuel + 1, attempt, sends =>
    let attempt' := attempt + 1
    let sends' := sends + 1
    if attempt' ≥ maxAttempts ∨ attempt' ≥ dropThreshold then
      (sends', .error retransmitError)
    else sendReliableDrain fuel attempt' sends'

/-- The `send_reliable` retry loop over a finite list of receive outcomes,
threading the attempt counter and counting transmissions (each iteration
sends once, then receives once). -/
def sendReliableGo (wireSeq : Nat) :
    Nat → Nat → List RecvEvent → Nat × Except HandshakeErrorModel AckModel
  | attempt, sends, [] => sendReliableDrain maxAttempts attempt sends
  | attempt, sends, e :: rest =>
    let attempt' := attempt + 1
    let sends' := sends + 1
    match e with
    | .ack s ok =>
      if s = wireSeq ∧ ok = true then (sends', .ok ⟨s, ok⟩)
      else sendReliableGo wireSeq attempt' sends' rest
    | .keepalive => sendReliableGo wireSeq 0 sends' rest
    | .failure =>
      if attempt' ≥ maxAttempts ∨ attempt' ≥ dropThreshold then
        (sends', .error retransmitError)
      else sendReliableGo wireSeq attempt' sends' rest

/-- `ReliableControlChannel::send_reliable` on a channel whose counter holds
`chanSeq`: the counter is advanced (wrapping) and stamped into the envelope,
then the retry loop runs. Returns the new counter value, the number of
transmissions, and the result. -/
def sendReliableModel (chanSeq : Nat) (events : List RecvEvent) :
    Nat × Nat × Except HandshakeErrorModel AckModel :=
  let seq := wrapAdd64 chanSeq 1
  (seq, sendReliableGo seq 0 0 events)

/-- The drain always ends in the retransmit-limit error. -/
theorem sendReliableDrain_result (fuel attempt sends : Nat) :
    (sendReliableDrain fuel attempt sends).2 = .error retransmitError := by
  induction fuel generalizing attempt sends with
  | zero => rfl
  | succ fuel ih =>
    rw [sendReliableDrain]
    split
    · rfl
    · exact ih _ _

/-- An `Ok` result of the loop carries an ack matching the wire seq. -/
theorem sendReliableGo_ok (wireSeq attempt sends : Nat)
    (events : List RecvEvent) (a : AckModel)
    (h : (sendReliableGo wireSeq attempt sends events).2 = .ok a) :
    a.seq = wireSeq ∧ a.ok = true := by
  induction events generalizing attempt sends with
  | nil =>
    rw [sendReliableGo, sendReliableDrain_result] at h
    cases h
  | cons e rest ih =>
    cases e with
    | ack s ok =>
      rw [sendReliableGo] at h
      split at h
      · rename_i hm
        simp only [Except.ok.injEq] at h
        subst h
        exact ⟨hm.1, hm.2⟩
      · exact ih _ _ h
    | keepalive =>
      rw [sendReliableGo] at h
      exact ih _ _ h
    | failure =>
      rw [sendReliableGo] at h
      split at h
      · cases h
      · exact ih _ _ h

/-- If no event is a matching ok-ack, the loop ends in the retransmit error. -/
theorem sendReliableGo_nomatch (wireSeq attempt sends : Nat)
    (events : List RecvEvent)
    (h : ∀ e ∈ events, e ≠ RecvEvent.ack wireSeq true) :
    (sendReliableGo wireSeq attempt sends events).2 = .error retransmitError := by
  induction events generalizing attempt sends with
  | nil => rw [sendReliableGo, sendReliableDrain_result]
  | cons e rest ih =>
    have hrest : ∀ e' ∈ rest, e' ≠ RecvEvent.ack wireSeq true :=
      fun e' he' => h e' (List.mem_cons_of_mem _ he')
    cases e with
    | ack s ok =>
      rw [sendReliableGo]
      split
      · rename_i hm
        exact absurd (by rw [hm.1, hm.2]) (h _ (List.mem_cons_self _ _))
      · exact ih _ _ hrest
    | keepalive =>
      rw [sendReliableGo]
      exact ih _ _ hrest
    | failure =>
      rw [sendReliableGo]
      split
      · rfl
      · exact ih _ _ hrest

/-- Counterexample for C2 as stated: with every receive yielding an `Ack`
with mismatched seq (here seven of them), the call does NOT terminate once
`attempt ≥ max_attempts = 5`: the mismatched-ack arm never consults the
limit, so the envelope is transmitted 8 times before a timeout finally trips
the catch-all arm. -/
theorem send_reliable_limit_counterexample :
    (sendReliableModel 0 (List.replicate 7 (RecvEvent.ack 99 true))).2.1 = 8 ∧
    ¬((sendReliableModel 0 (List.replicate 7 (RecvEvent.ack 99 true))).2.1 ≤
      maxAttempts) ∧
    (sendReliableModel 0 (List.replicate 7 (RecvEvent.ack 99 true))).2.2 =
      .error retransmitError := by
  refine ⟨by decide, by decide, ?_⟩
  rfl

/-- C2 (amended): for every finite sequence of receive outcomes (a transport
that eventually stops responding, further receives timing out): if the call
returns Ok, the returned ack's seq equals the transmitted envelope's seq and
its ok flag is true; and if no receive yields a matching ok-ack, the call
returns exactly one Transport retransmit-limit error — but the attempt limit
is only enforced by the catch-all arm (timeout, transport error, unexpected
message): receives yielding mismatched or not-ok acks keep the loop running
past `max_attempts` until a timeout or error occurs. -/
theorem send_reliable_outcomes (chanSeq : Nat) (events : List RecvEvent) :
    (∀ a, (sendReliableModel chanSeq events).2.2 = .ok a →
      a.seq = wrapAdd64 chanSeq 1 ∧ a.ok = true) ∧
    ((∀ e ∈ events, e ≠ RecvEvent.ack (wrapAdd64 chanSeq 1) true) →
      (sendReliableModel chanSeq events).2.2 = .error retransmitError) :=
  ⟨fun a h => sendReliableGo_ok _ 0 0 events a h,
   fun h => sendReliableGo_nomatch _ 0 0 events h⟩

/-- Witness for C2 (amended): a transport that acks attempt 2 with the right
seq yields that ack; a transport that only times out yields the error. -/
theorem send_reliable_outcomes_witness :
    (⟨1, true⟩ : AckModel).seq = wrapAdd64 0 1 ∧
    (⟨1, true⟩ : AckModel).ok = true ∧
    (sendReliableModel 0 [RecvEvent.failure]).2.2 = .error retransmitError :=
  ⟨((send_reliable_outcomes 0 [RecvEvent.failure, RecvEvent.ack 1 true]).1
      ⟨1, true⟩ (by rfl)).1,
   ((send_reliable_outcomes 0 [RecvEvent.failure, RecvEvent.ack 1 true]).1
      ⟨1, true⟩ (by rfl)).2,
   (send_reliable_outcomes 0 [RecvEvent.failure]).2 (by decide)⟩

/-! ## `control.rs` — `ControlClient::send` -/

/-- Modelled from the spec: `compute_mac` of `crypto.rs` is not under `src/`;
per the spec, "All MAC-bearing messages compute MAC over
(seq ‖ session_id_bytes ‖ canonical(payload))" — the model keeps the MAC as
that argument tuple, so a MAC value records exactly the seq it was computed
over. -/
structure MacModel where
  seq : Nat
  session_id : Nat
  payload : List Nat
deriving DecidableEq

/-- `ControlCrypto::mac_for_payload` (over the spec-modelled MAC). -/
def macForPayload (seq session_id : Nat) (payload : List Nat) : MacModel :=
  ⟨seq, session_id, payload⟩

/-- `ControlEnvelope` (the fields `ControlClient::send`/`send_reliable`
touch: `session_id`, `seq`, `payload`, `mac`; `message_type` and `op` are
constants along this path). -/
structure ControlEnvelopeModel where
  session_id : Nat
  seq : Nat
  payload : List Nat
  mac : MacModel
deriving DecidableEq

/-- `ControlClient::envelope`: builds the envelope carrying `seq` and a MAC
computed over that same `seq`. -/
def ControlClient.envelope (session_id seq : Nat) (payload : List Nat) :
    ControlEnvelopeModel :=
  ⟨session_id, seq, payload, macForPayload seq session_id payload⟩

/-- `ControlClient::send` followed by `send_reliable`'s stamping, on a channel
whose counter holds `chanSeq`: `send` draws `next_seq()` (advancing the
counter), builds the MAC-signed envelope, and hands it to `send_reliable` —
which advances the counter again and overwrites `envelope.seq` before
transmitting. Returns the envelope as transmitted and the counter's final
value. -/
def controlClientSend (chanSeq session_id : Nat) (payload : List Nat) :
    ControlEnvelopeModel × Nat :=
  let seq := wrapAdd64 chanSeq 1
  let env := ControlClient.envelope session_id seq payload
  let chanSeq2 := wrapAdd64 seq 1
  ({ env with seq := chanSeq2 }, chanSeq2)

/-- C3 evaluated at the failing input (a fresh channel, counter = 0): the
transmitted envelope carries seq 2 while its MAC was computed over seq 1, and
the counter advances by two — `ControlClient::send` calls `next_seq()` and
`send_reliable` then increments and restamps again, so wire seq and MAC seq
never agree and the counter moves by 2 per caller send. -/
theorem control_send_seq_mac_mismatch :
    (controlClientSend 0 7 [1, 2]).1.seq = 2 ∧
    (controlClientSend 0 7 [1, 2]).1.mac.seq = 1 ∧
    (controlClientSend 0 7 [1, 2]).2 = 2 ∧
    (controlClientSend 0 7 [1, 2]).1.mac.seq ≠
      (controlClientSend 0 7 [1, 2]).1.seq := by
  refine ⟨rfl, rfl, rfl, ?_⟩
  decide

/-! ## `stream.rs` — jitter application in `AlnpStream::send` -/

/-- `JitterStrategy` (defined in `session/mod.rs`). -/
inductive JitterStrategy
  | HoldLast
  | Drop
  | Lerp
deriving DecidableEq

/-- The `Lerp` loop of `apply_jitter`: for each input channel at index `idx`,
`((prev.channels.get(idx).unwrap_or(0) as u32 + value as u32) / 2) as u16`
(the cast is the `% 2^16` below; the quotient of two `u16` values always
fits). -/
def lerpBlend (prev : List Nat) (idx : Nat) : List Nat → List Nat
  | [] => []
  | v :: rest => (((prev.getD idx 0) + v) / 2) % 65536 :: lerpBlend prev (idx + 1) rest

/-- `AlnpStream::apply_jitter`, as a function of the strategy, the stored
`last_frame`'s channels, and the input channels. -/
def applyJitter (strategy : JitterStrategy) (last_frame : Option (List Nat))
    (channels : List Nat) : List Nat :=
  match strategy with
  | .HoldLast =>
    if channels.isEmpty then
      match last_frame with
      | some last => last
      | none => channels
    else channels
  | .Drop => if channels.isEmpty then [] else channels
  | .Lerp =>
    match last_frame with
    | some last => lerpBlend last 0 channels
    | none => channels

/-- `AlnpStream::jitter_strategy_from_profile`. -/
def jitterStrategyFromProfile (p : CompiledStreamProfile) : JitterStrategy :=
  if p.latency_weight ≥ p.resilience_weight then .HoldLast else .Lerp

/-- The channels `AlnpStream::send` places into the emitted `FrameEnvelope`:
`apply_jitter` under the strategy derived from the bound compiled profile. -/
def sendFrameChannels (p : CompiledStreamProfile) (last_frame : Option (List Nat))
    (channels : List Nat) : List Nat :=
  applyJitter (jitterStrategyFromProfile p) last_frame channels

/-- The claim's description of the emitted channels, written from the spec's
words: HoldLast when `latency_weight ≥ resilience_weight` (empty input with a
last frame returns the last frame's channels, otherwise the input unchanged),
else Lerp (`out[i] = ((prev.channels[i] or 0) + channels[i]) / 2` with integer
halving, or the input unchanged when no last frame exists). -/
def claimJitterChannels (p : CompiledStreamProfile) (last_frame : Option (List Nat))
    (channels : List Nat) : List Nat :=
  if p.latency_weight ≥ p.resilience_weight then
    match last_frame with
    | some prev => if channels.isEmpty then prev else channels
    | none => channels
  else
    match last_frame with
    | some prev => lerpBlendSpec prev 0 channels
    | none => channels
where
  /-- The claim's Lerp: integer halving with no cast. -/
  lerpBlendSpec (prev : List Nat) (idx : Nat) : List Nat → List Nat
    | [] => []
    | v :: rest => ((prev.getD idx 0) + v) / 2 :: lerpBlendSpec prev (idx + 1) rest

/-- The elements `List.getD` returns are bounded when the list's are. -/
theorem getD_lt_of_forall (l : List Nat) (idx : Nat)
    (h : ∀ x ∈ l, x < 65536) : l.getD idx 0 < 65536 := by
  rcases Nat.lt_or_ge idx l.length with hlt | hge
  · rw [List.getD_eq_getElem l 0 hlt]
    exact h _ (List.getElem_mem hlt)
  · rw [List.getD_eq_default l 0 hge]
    decide

/-- For `u16`-valued channels the cast in the Lerp loop is the identity. -/
theorem lerpBlend_eq_spec (prev : List Nat) (hprev : ∀ x ∈ prev, x < 65536) :
    ∀ (channels : List Nat) (idx : Nat), (∀ x ∈ channels, x < 65536) →
      lerpBlend prev idx channels =
        claimJitterChannels.lerpBlendSpec prev idx channels := by
  intro channels
  induction channels with
  | nil => intro idx _; rfl
  | cons v rest ih =>
    intro idx hch
    have hv : v < 65536 := hch v (List.mem_cons_self _ _)
    have hp : prev.getD idx 0 < 65536 := getD_lt_of_forall prev idx hprev
    have hhalf : ((prev.getD idx 0) + v) / 2 < 65536 := by omega
    rw [lerpBlend, claimJitterChannels.lerpBlendSpec,
      Nat.mod_eq_of_lt hhalf,
      ih (idx + 1) (fun x hx => hch x (List.mem_cons_of_mem _ hx))]

/-- C7: the channels placed in the emitted `FrameEnvelope` are computed from
the input channels and the stored `last_frame` by the strategy derived from
the bound compiled profile — HoldLast when `latency_weight ≥
resilience_weight`, else Lerp — with the semantics the claim states
(for `u16`-valued channel data, as the source's `Vec<u16>` guarantees). -/
theorem send_frame_channels_spec (p : CompiledStreamProfile)
    (last_frame : Option (List Nat)) (channels : List Nat)
    (hlast : ∀ l, last_frame = some l → ∀ x ∈ l, x < 65536)
    (hch : ∀ x ∈ channels, x < 65536) :
    sendFrameChannels p last_frame channels =
      claimJitterChannels p last_frame channels := by
  unfold sendFrameChannels jitterStrategyFromProfile claimJitterChannels
  by_cases hw : p.latency_weight ≥ p.resilience_weight
  · rw [if_pos hw, if_pos hw]
    cases last_frame <;> by_cases he : channels.isEmpty <;>
      simp [applyJitter, he]
  · rw [if_neg hw, if_neg hw]
    cases hl : last_frame with
    | none => simp [applyJitter]
    | some prev =>
      simpa [applyJitter] using
        lerpBlend_eq_spec prev (hlast prev hl) channels 0 hch

/-- Witness for C7: a profile weighted toward resilience uses Lerp; with last
frame `[10, 20]` and input `[30]` the emitted channels are `[(10+30)/2]`. -/
theorem send_frame_channels_spec_witness :
    sendFrameChannels ⟨.Auto, 40, 60, ""⟩ (some [10, 20]) [30] =
      claimJitterChannels ⟨.Auto, 40, 60, ""⟩ (some [10, 20]) [30] :=
  send_frame_channels_spec ⟨.Auto, 40, 60, ""⟩ (some [10, 20]) [30]
    (fun l hl => by
      simp only [Option.some.injEq] at hl
      subst hl
      decide)
    (by decide)

/-! ## `session/mod.rs` — profile locking -/

/-- Modelled from the spec: `SessionState` of `session/state.rs` is not under
`src/`; per the spec it is
`Init | Handshake | Authenticated{since} | Ready{since} | Streaming{since} |
Closed | Failed{reason}` — the monotonic `since` timestamps are dropped (they
carry no information the lock discipline reads). -/
inductive SessionStateModel
  | Init
  | Handshake
  | Authenticated
  | Ready
  | Streaming
  | Closed
  | Failed (reason : String)
deriving DecidableEq

/-- The fields of `AlnpSession` that `set_stream_profile`/`mark_streaming`
touch (each `Arc<Mutex<_>>` becomes a plain field; the lock acquisitions
always succeed in this single-threaded model, so the poisoned-guard arms are
not taken). -/
structure AlnpSessionModel where
  state : SessionStateModel
  compiled_profile : Option CompiledStreamProfile
  profile_locked : Bool
deriving DecidableEq

/-- `AlnpSession::set_stream_profile`. -/
def setStreamProfile (s : AlnpSessionModel) (p : CompiledStreamProfile) :
    Except HandshakeErrorModel AlnpSessionModel :=
  if s.profile_locked then
    .error (.Protocol "stream profile cannot be changed after streaming starts")
  else .ok { s with compiled_profile := some p }

/-- `AlnpSession::mark_streaming`, parametric in the transition function of
the missing `session/state.rs` (`current.transition(Streaming{..})`, whose
failure is discarded by the source): when the state is `Ready` the transition
is attempted and applied on success; then — unconditionally — the profile
lock is set. -/
def markStreaming
    (transition : SessionStateModel → Except String SessionStateModel)
    (s : AlnpSessionModel) : AlnpSessionModel :=
  let s1 := match s.state with
    | .Ready =>
      match transition s.state with
      | .ok next => { s with state := next }
      | .error _ => s
    | _ => s
  { s1 with profile_locked := true }

/-- C10: `mark_streaming` sets the profile lock unconditionally — for every
session state (Ready or not), every transition behavior of the state machine,
and every profile, after `mark_streaming` the lock is set and every
subsequent `set_stream_profile` returns the profile-locked error instead of
replacing the compiled profile. -/
theorem mark_streaming_locks_profile
    (transition : SessionStateModel → Except String SessionStateModel)
    (s : AlnpSessionModel) (p : CompiledStreamProfile) :
    (markStreaming transition s).profile_locked = true ∧
    setStreamProfile (markStreaming transition s) p =
      .error (.Protocol "stream profile cannot be changed after streaming starts") :=
  ⟨rfl, rfl⟩

end Alnp
